import Mathlib

/-!  Verification of the quiz grading and statistics engine of the
student-onboarding management system
(backend/app/agents/quiz_grader.py, backend/app/agents/email_notifier.py,
backend/app/models/schemas.py).

Modelling conventions:
* Python `int` is `Int`, Python `float` percentages are `ℚ` (all the
  arithmetic performed on them here — integer division results, sums,
  comparisons against integer literals — is exact).
* A Python `Dict[str, str]` is an association list `List (String × String)`
  whose lookup (`dictGet`) returns the first binding, matching `dict.get`
  (Python dict keys are unique, so first/only coincide).
* Fields that are pure effects (uuid ids, datetimes) are omitted from the
  embedded records; the AI crew call `crew.kickoff()` is modelled by an
  `Option String` parameter: `some s` means the call returned and
  `str(result) = s`, `none` means it raised and the `except` branch runs.
-/

namespace QuizGrading

/-- One selectable option of a question (schemas.py `QuestionOption`). -/
structure QuestionOption where
  id : String
  text : String
  is_correct : Bool
deriving DecidableEq

/-- A quiz question (schemas.py `Question`). -/
structure Question where
  id : String
  question_text : String
  options : List QuestionOption
  correct_answer_id : String
  points : Int
deriving DecidableEq

/-- A student's submission (schemas.py `QuizResponse`); the `submitted_at`
datetime is omitted. -/
structure QuizResponse where
  quiz_id : String
  student_id : String
  answers : List (String × String)
deriving DecidableEq

/-- A graded result (schemas.py `QuizResult`); the uuid `id` and the two
datetime fields are omitted.  Note the type has no feedback field. -/
structure QuizResult where
  quiz_id : String
  student_id : String
  student_name : String
  answers : List (String × String)
  score : Int
  total_points : Int
  percentage : ℚ
deriving DecidableEq

/-- `dict.get` on the association-list model of a Python dict: first binding
for the key, `none` when absent. -/
def dictGet (answers : List (String × String)) (k : String) : Option String :=
  match answers with
  | [] => none
  | (k2, v) :: rest => if k2 = k then some v else dictGet rest k

/-- Contribution of one question to the score: the loop body
`if student_answer == question.correct_answer_id: score += question.points`. -/
def questionScore (answers : List (String × String)) (q : Question) : Int :=
  if dictGet answers q.id = some q.correct_answer_id then q.points else 0

/-- The score accumulated by the grading loop of `grade_quiz`. -/
def scoreOf (answers : List (String × String)) (qs : List Question) : Int :=
  (qs.map (questionScore answers)).sum

/-- `total_points = sum(question.points for question in quiz_questions)`. -/
def totalPoints (qs : List Question) : Int :=
  (qs.map Question.points).sum

/-- `percentage = (score / total_points * 100) if total_points > 0 else 0`. -/
def percentageOf (score total : Int) : ℚ :=
  if 0 < total then (score : ℚ) / (total : ℚ) * 100 else 0

/-- Rounding to the nearest integer with ties going to the even integer,
the rule CPython uses when formatting a float (its formatting is correctly
rounded, so on an exactly representable value `%.1f` rounds the true value
to one decimal this way: `f"{6.25:.1f}"` is `"6.2"`, not `"6.3"`). -/
def roundHalfEven (x : ℚ) : ℤ :=
  if x - (⌊x⌋ : ℚ) < 1 / 2 then ⌊x⌋
  else if 1 / 2 < x - (⌊x⌋ : ℚ) then ⌊x⌋ + 1
  else if ⌊x⌋ % 2 = 0 then ⌊x⌋ else ⌊x⌋ + 1

/-- Python `"%.1f"`-style rendering of a percentage to one decimal place,
used by the f-strings in the source: the value times 10 is rounded to the
nearest integer, ties to even, and printed with a decimal point inserted.
This agrees with CPython exactly whenever the percentage is representable
in binary64 (which covers every one-decimal tie the program can hit
exactly, the values `odd/4` such as 6.25 or 31.25); a percentage that is
not representable (such as 127/20 = 6.35, or 200/3) is formatted by the
program via its nearest double, the usual slack of embedding floats as
`ℚ`. -/
def fmt1 (q : ℚ) : String :=
  (if roundHalfEven (q * 10) < 0 then "-" else "") ++
    toString ((roundHalfEven (q * 10)).natAbs / 10) ++ "." ++
    toString ((roundHalfEven (q * 10)).natAbs % 10)

/-- The deterministic fallback f-string of the `except` branch of
`grade_quiz`:
`f"Quiz completed with a score of {score}/{total_points} ({percentage:.1f}%). Keep studying and practicing!"`. -/
def fallbackFeedback (score total_points : Int) (percentage : ℚ) : String :=
  "Quiz completed with a score of " ++ toString score ++ "/" ++
    toString total_points ++ " (" ++ fmt1 percentage ++
    "%). Keep studying and practicing!"

/-- `QuizGraderAgent.grade_quiz`.  `crewOutcome` models the
`crew.kickoff()` call (see the header comment); the function returns the
pair `(quiz_result, feedback)` exactly as the Python `return` does. -/
def grade_quiz (crewOutcome : Option String) (quiz_response : QuizResponse)
    (quiz_questions : List Question) : QuizResult × String :=
  let score := scoreOf quiz_response.answers quiz_questions
  let total_points := totalPoints quiz_questions
  let percentage := percentageOf score total_points
  let feedback :=
    match crewOutcome with
    | some s => s
    | none => fallbackFeedback score total_points percentage
  ({ quiz_id := quiz_response.quiz_id
     student_id := quiz_response.student_id
     student_name := ""
     answers := quiz_response.answers
     score := score
     total_points := total_points
     percentage := percentage }, feedback)

/-- Bucket test `90 <= s <= 100` of the `"A (90-100)"` histogram entry. -/
def inBucketA (s : ℚ) : Bool := decide (90 ≤ s ∧ s ≤ 100)

/-- Bucket test `80 <= s <= 89` of the `"B (80-89)"` histogram entry. -/
def inBucketB (s : ℚ) : Bool := decide (80 ≤ s ∧ s ≤ 89)

/-- Bucket test `70 <= s <= 79` of the `"C (70-79)"` histogram entry. -/
def inBucketC (s : ℚ) : Bool := decide (70 ≤ s ∧ s ≤ 79)

/-- Bucket test `60 <= s <= 69` of the `"D (60-69)"` histogram entry. -/
def inBucketD (s : ℚ) : Bool := decide (60 ≤ s ∧ s ≤ 69)

/-- Bucket test `0 <= s <= 59` of the `"F (0-59)"` histogram entry. -/
def inBucketF (s : ℚ) : Bool := decide (0 ≤ s ∧ s ≤ 59)

/-- Number of histogram buckets that contain a given percentage. -/
def bucketCount (s : ℚ) : Nat :=
  (if inBucketA s then 1 else 0) + (if inBucketB s then 1 else 0) +
    (if inBucketC s then 1 else 0) + (if inBucketD s then 1 else 0) +
    (if inBucketF s then 1 else 0)

/-- Python `max` over a nonempty list (`max(scores)`); the `[]` case is
unreachable in `generate_class_statistics` because of its empty-input guard. -/
def pyMax : List ℚ → ℚ
  | [] => 0
  | x :: xs => xs.foldl max x

/-- Python `min` over a nonempty list (`min(scores)`). -/
def pyMin : List ℚ → ℚ
  | [] => 0
  | x :: xs => xs.foldl min x

/-- The statistics dictionary built by `generate_class_statistics` for a
nonempty input, with the five `grade_distribution` entries flattened into
fields. -/
structure ClassStatistics where
  total_students : Nat
  average_score : ℚ
  highest_score : ℚ
  lowest_score : ℚ
  pass_rate : ℚ
  gradeA : Nat
  gradeB : Nat
  gradeC : Nat
  gradeD : Nat
  gradeF : Nat
deriving DecidableEq

/-- `QuizGraderAgent.generate_class_statistics`; the Python `return {}` on
an empty input is the `none` sentinel, a populated dictionary is `some`. -/
def generate_class_statistics (quiz_results : List QuizResult) :
    Option ClassStatistics :=
  if quiz_results = [] then none
  else
    let scores := quiz_results.map QuizResult.percentage
    some
      { total_students := quiz_results.length
        average_score := scores.sum / (scores.length : ℚ)
        highest_score := pyMax scores
        lowest_score := pyMin scores
        pass_rate := ((scores.countP fun s => decide (60 ≤ s)) : ℚ) /
          (scores.length : ℚ) * 100
        gradeA := scores.countP inBucketA
        gradeB := scores.countP inBucketB
        gradeC := scores.countP inBucketC
        gradeD := scores.countP inBucketD
        gradeF := scores.countP inBucketF }

/-- The performance-level ladder of
`EmailNotifierAgent._generate_quiz_result_email` (the `color` assignments,
pure presentation, are not modelled). -/
def performanceLevel (percentage : ℚ) : String :=
  if 90 ≤ percentage then "Excellent"
  else if 80 ≤ percentage then "Good"
  else if 70 ≤ percentage then "Satisfactory"
  else "Needs Improvement"

/-! Concrete sample data used by several witnesses, taken from the spec's
concrete scenarios. -/

/-- Sample question `q1` (1 point, correct option `"A"`). -/
def sampleQ1 : Question := ⟨"q1", "", [], "A", 1⟩

/-- Sample question `q2` (1 point, correct option `"B"`). -/
def sampleQ2 : Question := ⟨"q2", "", [], "B", 1⟩

/-- Sample submission answering `q1` right and `q2` wrong. -/
def sampleResp : QuizResponse := ⟨"quiz-1", "stu-1", [("q1", "A"), ("q2", "C")]⟩

/-- A result record carrying a given percentage (the aggregator only reads
the `percentage` field). -/
def sampleResult (p : ℚ) : QuizResult := ⟨"quiz-1", "stu-1", "", [], 0, 0, p⟩

/-- The five-student class of the spec's concrete statistics scenario. -/
def fiveSample : List QuizResult :=
  [sampleResult 100, sampleResult 80, sampleResult 60, sampleResult 40,
    sampleResult 20]

/-! Helper lemmas about the grading loop. -/

theorem scoreOf_nil (answers : List (String × String)) : scoreOf answers [] = 0 := rfl

theorem scoreOf_cons (answers : List (String × String)) (q : Question)
    (qs : List Question) :
    scoreOf answers (q :: qs) = questionScore answers q + scoreOf answers qs := by
  simp [scoreOf]

/-- The accumulated score is the sum of the points of the correctly answered
questions. -/
theorem scoreOf_eq_filter_sum (answers : List (String × String))
    (qs : List Question) :
    scoreOf answers qs =
      ((qs.filter fun q =>
          decide (dictGet answers q.id = some q.correct_answer_id)).map
        Question.points).sum := by
  induction qs with
  | nil => rfl
  | cons q qs ih =>
    rw [scoreOf_cons, ih, List.filter_cons]
    by_cases h : dictGet answers q.id = some q.correct_answer_id
    · simp [questionScore, h]
    · simp [questionScore, h]

/-- With nonnegative point values the score is nonnegative. -/
theorem scoreOf_nonneg (answers : List (String × String)) (qs : List Question)
    (hpts : ∀ q ∈ qs, 0 ≤ q.points) : 0 ≤ scoreOf answers qs := by
  induction qs with
  | nil => simp [scoreOf_nil]
  | cons q qs ih =>
    rw [scoreOf_cons]
    have h1 : 0 ≤ questionScore answers q := by
      unfold questionScore
      split
      · exact hpts q (List.mem_cons_self q qs)
      · exact le_refl 0
    have h2 : 0 ≤ scoreOf answers qs :=
      ih fun q' hq' => hpts q' (List.mem_cons_of_mem q hq')
    omega

/-- With nonnegative point values the score never exceeds the total. -/
theorem scoreOf_le_totalPoints (answers : List (String × String))
    (qs : List Question) (hpts : ∀ q ∈ qs, 0 ≤ q.points) :
    scoreOf answers qs ≤ totalPoints qs := by
  induction qs with
  | nil => simp [scoreOf_nil, totalPoints]
  | cons q qs ih =>
    rw [scoreOf_cons]
    have h1 : questionScore answers q ≤ q.points := by
      unfold questionScore
      split
      · exact le_refl _
      · exact hpts q (List.mem_cons_self q qs)
    have h2 : scoreOf answers qs ≤ totalPoints qs :=
      ih fun q' hq' => hpts q' (List.mem_cons_of_mem q hq')
    have h3 : totalPoints (q :: qs) = q.points + totalPoints qs := by
      simp [totalPoints]
    omega

/-- Lookups of keys that agree on every question id give equal scores. -/
theorem scoreOf_congr (a1 a2 : List (String × String)) (qs : List Question)
    (h : ∀ q ∈ qs, dictGet a1 q.id = dictGet a2 q.id) :
    scoreOf a1 qs = scoreOf a2 qs := by
  induction qs with
  | nil => rfl
  | cons q qs ih =>
    rw [scoreOf_cons, scoreOf_cons]
    have h1 : questionScore a1 q = questionScore a2 q := by
      unfold questionScore
      rw [h q (List.mem_cons_self q qs)]
    rw [h1, ih fun q' hq' => h q' (List.mem_cons_of_mem q hq')]

/-- Prepending bindings for unrelated keys does not change a lookup. -/
theorem dictGet_append_of_not_mem (extras answers : List (String × String))
    (k : String) (h : k ∉ extras.map Prod.fst) :
    dictGet (extras ++ answers) k = dictGet answers k := by
  induction extras with
  | nil => rfl
  | cons pr rest ih =>
    obtain ⟨k2, v⟩ := pr
    have hk2 : k2 ≠ k := by
      intro he
      exact h (by simp [he])
    rw [List.cons_append]
    show (if k2 = k then some v else dictGet (rest ++ answers) k) = dictGet answers k
    rw [if_neg hk2]
    exact ih fun hm => h (List.mem_cons_of_mem _ hm)

/-! Helper lemmas about Python `max`/`min` over a nonempty list. -/

theorem le_foldl_max (xs : List ℚ) (a : ℚ) : a ≤ xs.foldl max a := by
  induction xs generalizing a with
  | nil => exact le_refl a
  | cons y ys ih => exact le_trans (le_max_left a y) (ih (max a y))

theorem mem_le_foldl_max (xs : List ℚ) (a x : ℚ) (hx : x ∈ xs) :
    x ≤ xs.foldl max a := by
  induction xs generalizing a with
  | nil => cases hx
  | cons y ys ih =>
    rw [List.foldl_cons]
    rcases List.mem_cons.mp hx with h | h
    · rw [h]; exact le_trans (le_max_right a y) (le_foldl_max ys (max a y))
    · exact ih (max a y) h

theorem foldl_max_mem (xs : List ℚ) (a : ℚ) :
    xs.foldl max a = a ∨ xs.foldl max a ∈ xs := by
  induction xs generalizing a with
  | nil => exact Or.inl rfl
  | cons y ys ih =>
    rcases ih (max a y) with h | h
    · rcases max_choice a y with hm | hm
      · exact Or.inl (by rw [List.foldl_cons, h, hm])
      · exact Or.inr (by rw [List.foldl_cons, h, hm]; exact List.mem_cons_self y ys)
    · exact Or.inr (List.mem_cons_of_mem y h)

theorem foldl_min_le (xs : List ℚ) (a : ℚ) : xs.foldl min a ≤ a := by
  induction xs generalizing a with
  | nil => exact le_refl a
  | cons y ys ih => exact le_trans (ih (min a y)) (min_le_left a y)

theorem foldl_min_le_mem (xs : List ℚ) (a x : ℚ) (hx : x ∈ xs) :
    xs.foldl min a ≤ x := by
  induction xs generalizing a with
  | nil => cases hx
  | cons y ys ih =>
    rw [List.foldl_cons]
    rcases List.mem_cons.mp hx with h | h
    · rw [h]; exact le_trans (foldl_min_le ys (min a y)) (min_le_right a y)
    · exact ih (min a y) h

theorem foldl_min_mem (xs : List ℚ) (a : ℚ) :
    xs.foldl min a = a ∨ xs.foldl min a ∈ xs := by
  induction xs generalizing a with
  | nil => exact Or.inl rfl
  | cons y ys ih =>
    rcases ih (min a y) with h | h
    · rcases min_choice a y with hm | hm
      · exact Or.inl (by rw [List.foldl_cons, h, hm])
      · exact Or.inr (by rw [List.foldl_cons, h, hm]; exact List.mem_cons_self y ys)
    · exact Or.inr (List.mem_cons_of_mem y h)

theorem pyMax_mem (xs : List ℚ) (h : xs ≠ []) : pyMax xs ∈ xs := by
  match xs with
  | [] => exact absurd rfl h
  | x :: rest =>
    rcases foldl_max_mem rest x with h1 | h1
    · rw [pyMax, h1]; exact List.mem_cons_self x rest
    · exact List.mem_cons_of_mem x (by rw [pyMax]; exact h1)

theorem le_pyMax (xs : List ℚ) (x : ℚ) (hx : x ∈ xs) : x ≤ pyMax xs := by
  match xs with
  | [] => cases hx
  | y :: rest =>
    rcases List.mem_cons.mp hx with h | h
    · exact h ▸ le_foldl_max rest y
    · exact mem_le_foldl_max rest y x h

theorem pyMin_mem (xs : List ℚ) (h : xs ≠ []) : pyMin xs ∈ xs := by
  match xs with
  | [] => exact absurd rfl h
  | x :: rest =>
    rcases foldl_min_mem rest x with h1 | h1
    · rw [pyMin, h1]; exact List.mem_cons_self x rest
    · exact List.mem_cons_of_mem x (by rw [pyMin]; exact h1)

theorem pyMin_le (xs : List ℚ) (x : ℚ) (hx : x ∈ xs) : pyMin xs ≤ x := by
  match xs with
  | [] => cases hx
  | y :: rest =>
    rcases List.mem_cons.mp hx with h | h
    · exact h ▸ foldl_min_le rest y
    · exact foldl_min_le_mem rest y x h

/-! Helper lemmas about the histogram buckets at integer percentages. -/

theorem inBucketA_intCast (n : ℤ) :
    inBucketA (n : ℚ) = decide (90 ≤ n ∧ n ≤ 100) := by
  rw [inBucketA, decide_eq_decide]
  constructor
  · rintro ⟨h1, h2⟩; exact ⟨by exact_mod_cast h1, by exact_mod_cast h2⟩
  · rintro ⟨h1, h2⟩; exact ⟨by exact_mod_cast h1, by exact_mod_cast h2⟩

theorem inBucketB_intCast (n : ℤ) :
    inBucketB (n : ℚ) = decide (80 ≤ n ∧ n ≤ 89) := by
  rw [inBucketB, decide_eq_decide]
  constructor
  · rintro ⟨h1, h2⟩; exact ⟨by exact_mod_cast h1, by exact_mod_cast h2⟩
  · rintro ⟨h1, h2⟩; exact ⟨by exact_mod_cast h1, by exact_mod_cast h2⟩

theorem inBucketC_intCast (n : ℤ) :
    inBucketC (n : ℚ) = decide (70 ≤ n ∧ n ≤ 79) := by
  rw [inBucketC, decide_eq_decide]
  constructor
  · rintro ⟨h1, h2⟩; exact ⟨by exact_mod_cast h1, by exact_mod_cast h2⟩
  · rintro ⟨h1, h2⟩; exact ⟨by exact_mod_cast h1, by exact_mod_cast h2⟩

theorem inBucketD_intCast (n : ℤ) :
    inBucketD (n : ℚ) = decide (60 ≤ n ∧ n ≤ 69) := by
  rw [inBucketD, decide_eq_decide]
  constructor
  · rintro ⟨h1, h2⟩; exact ⟨by exact_mod_cast h1, by exact_mod_cast h2⟩
  · rintro ⟨h1, h2⟩; exact ⟨by exact_mod_cast h1, by exact_mod_cast h2⟩

theorem inBucketF_intCast (n : ℤ) :
    inBucketF (n : ℚ) = decide (0 ≤ n ∧ n ≤ 59) := by
  rw [inBucketF, decide_eq_decide]
  constructor
  · rintro ⟨h1, h2⟩; exact ⟨by exact_mod_cast h1, by exact_mod_cast h2⟩
  · rintro ⟨h1, h2⟩; exact ⟨by exact_mod_cast h1, by exact_mod_cast h2⟩

/-! Helper lemmas placing a percentage outside individual buckets. -/

theorem inBucketA_false_of_lt (p : ℚ) (h : p < 90) : inBucketA p = false := by
  simp only [inBucketA, decide_eq_false_iff_not]; rintro ⟨h1, -⟩; linarith

theorem inBucketB_false_of_lt (p : ℚ) (h : p < 80) : inBucketB p = false := by
  simp only [inBucketB, decide_eq_false_iff_not]; rintro ⟨h1, -⟩; linarith

theorem inBucketB_false_of_gt (p : ℚ) (h : 89 < p) : inBucketB p = false := by
  simp only [inBucketB, decide_eq_false_iff_not]; rintro ⟨-, h2⟩; linarith

theorem inBucketC_false_of_lt (p : ℚ) (h : p < 70) : inBucketC p = false := by
  simp only [inBucketC, decide_eq_false_iff_not]; rintro ⟨h1, -⟩; linarith

theorem inBucketC_false_of_gt (p : ℚ) (h : 79 < p) : inBucketC p = false := by
  simp only [inBucketC, decide_eq_false_iff_not]; rintro ⟨-, h2⟩; linarith

theorem inBucketD_false_of_lt (p : ℚ) (h : p < 60) : inBucketD p = false := by
  simp only [inBucketD, decide_eq_false_iff_not]; rintro ⟨h1, -⟩; linarith

theorem inBucketD_false_of_gt (p : ℚ) (h : 69 < p) : inBucketD p = false := by
  simp only [inBucketD, decide_eq_false_iff_not]; rintro ⟨-, h2⟩; linarith

theorem inBucketF_false_of_gt (p : ℚ) (h : 59 < p) : inBucketF p = false := by
  simp only [inBucketF, decide_eq_false_iff_not]; rintro ⟨-, h2⟩; linarith

/-- Mutual exclusivity of the histogram buckets: no percentage lies in two
of them. -/
theorem bucketCount_le_one (p : ℚ) : bucketCount p ≤ 1 := by
  rcases le_or_lt 90 p with h | h
  · simp only [bucketCount, inBucketB_false_of_gt p (by linarith),
      inBucketC_false_of_gt p (by linarith), inBucketD_false_of_gt p (by linarith),
      inBucketF_false_of_gt p (by linarith), Bool.false_eq_true, if_false]
    split_ifs <;> norm_num
  · rcases le_or_lt 80 p with h2 | h2
    · simp only [bucketCount, inBucketA_false_of_lt p h,
        inBucketC_false_of_gt p (by linarith), inBucketD_false_of_gt p (by linarith),
        inBucketF_false_of_gt p (by linarith), Bool.false_eq_true, if_false]
      split_ifs <;> norm_num
    · rcases le_or_lt 70 p with h3 | h3
      · simp only [bucketCount, inBucketA_false_of_lt p (by linarith),
          inBucketB_false_of_lt p h2, inBucketD_false_of_gt p (by linarith),
          inBucketF_false_of_gt p (by linarith), Bool.false_eq_true, if_false]
        split_ifs <;> norm_num
      · rcases le_or_lt 60 p with h4 | h4
        · simp only [bucketCount, inBucketA_false_of_lt p (by linarith),
            inBucketB_false_of_lt p (by linarith), inBucketC_false_of_lt p h3,
            inBucketF_false_of_gt p (by linarith), Bool.false_eq_true, if_false]
          split_ifs <;> norm_num
        · simp only [bucketCount, inBucketA_false_of_lt p (by linarith),
            inBucketB_false_of_lt p (by linarith), inBucketC_false_of_lt p (by linarith),
            inBucketD_false_of_lt p h4, Bool.false_eq_true, if_false]
          split_ifs <;> norm_num

/-! The claims. -/

/-- C1: `grade_quiz` computes `total_points` as the sum of every question's
point value and `score` as the sum of the point values of exactly those
questions whose identifier is mapped to that question's
`correct_answer_id`; with nonnegative point values and positive total,
`0 ≤ score ≤ total_points` and the percentage is exactly
`100 * score / total_points`. -/
theorem C1_grade_quiz_score_spec (crew : Option String) (resp : QuizResponse)
    (qs : List Question) (hpts : ∀ q ∈ qs, 0 ≤ q.points)
    (hT : 0 < totalPoints qs) :
    (grade_quiz crew resp qs).1.total_points = (qs.map Question.points).sum ∧
    (grade_quiz crew resp qs).1.score =
      ((qs.filter fun q =>
          decide (dictGet resp.answers q.id = some q.correct_answer_id)).map
        Question.points).sum ∧
    0 ≤ (grade_quiz crew resp qs).1.score ∧
    (grade_quiz crew resp qs).1.score ≤ (grade_quiz crew resp qs).1.total_points ∧
    (grade_quiz crew resp qs).1.percentage =
      100 * ((grade_quiz crew resp qs).1.score : ℚ) /
        ((grade_quiz crew resp qs).1.total_points : ℚ) := by
  have hsc : (grade_quiz crew resp qs).1.score = scoreOf resp.answers qs := rfl
  have htp : (grade_quiz crew resp qs).1.total_points = totalPoints qs := rfl
  have hpc : (grade_quiz crew resp qs).1.percentage =
      percentageOf (scoreOf resp.answers qs) (totalPoints qs) := rfl
  refine ⟨htp, ?_, ?_, ?_, ?_⟩
  · rw [hsc]; exact scoreOf_eq_filter_sum resp.answers qs
  · rw [hsc]; exact scoreOf_nonneg resp.answers qs hpts
  · rw [hsc, htp]; exact scoreOf_le_totalPoints resp.answers qs hpts
  · rw [hpc, hsc, htp, percentageOf, if_pos hT]; ring

/-- C1 witness: the spec's two-question scenario (one right, one wrong
answer) satisfies the hypotheses and the conclusion of C1. -/
theorem C1_grade_quiz_score_spec_witness :
    (∀ q ∈ [sampleQ1, sampleQ2], 0 ≤ q.points) ∧
    0 < totalPoints [sampleQ1, sampleQ2] ∧
    ((grade_quiz none sampleResp [sampleQ1, sampleQ2]).1.total_points =
        (([sampleQ1, sampleQ2]).map Question.points).sum ∧
      (grade_quiz none sampleResp [sampleQ1, sampleQ2]).1.score =
        ((([sampleQ1, sampleQ2]).filter fun q =>
            decide (dictGet sampleResp.answers q.id =
              some q.correct_answer_id)).map Question.points).sum ∧
      0 ≤ (grade_quiz none sampleResp [sampleQ1, sampleQ2]).1.score ∧
      (grade_quiz none sampleResp [sampleQ1, sampleQ2]).1.score ≤
        (grade_quiz none sampleResp [sampleQ1, sampleQ2]).1.total_points ∧
      (grade_quiz none sampleResp [sampleQ1, sampleQ2]).1.percentage =
        100 * ((grade_quiz none sampleResp [sampleQ1, sampleQ2]).1.score : ℚ) /
          ((grade_quiz none sampleResp [sampleQ1, sampleQ2]).1.total_points : ℚ)) :=
  ⟨by decide, by decide,
    C1_grade_quiz_score_spec none sampleResp [sampleQ1, sampleQ2]
      (by decide) (by decide)⟩

/-- C2: when the point values sum to 0 the percentage guard takes the
`else` branch and `grade_quiz` returns percentage 0 (it is a total
function, so no exception is possible). -/
theorem C2_zero_total_percentage_zero (crew : Option String)
    (resp : QuizResponse) (qs : List Question) (hT : totalPoints qs = 0) :
    (grade_quiz crew resp qs).1.percentage = 0 := by
  have hpc : (grade_quiz crew resp qs).1.percentage =
      percentageOf (scoreOf resp.answers qs) (totalPoints qs) := rfl
  rw [hpc, hT, percentageOf, if_neg (lt_irrefl 0)]

/-- C2 witness: the empty question list has total 0 and grades to
percentage 0. -/
theorem C2_zero_total_percentage_zero_witness :
    totalPoints [] = 0 ∧ (grade_quiz none sampleResp []).1.percentage = 0 :=
  ⟨rfl, C2_zero_total_percentage_zero none sampleResp [] rfl⟩

/-- C4: on an empty result collection `generate_class_statistics` returns
the empty sentinel (`none`, the Python `{}`), which is distinct from
`some s` for every populated statistics record `s`, in particular from the
all-zero one. -/
theorem C4_empty_sentinel :
    generate_class_statistics [] = none ∧
    ∀ s : ClassStatistics, generate_class_statistics [] ≠ some s := by
  have h0 : generate_class_statistics [] = none := rfl
  exact ⟨h0, fun s h => by rw [h0] at h; cases h⟩

/-- C8: the score is invariant under permuting the question list and under
prepending answer-map entries whose keys are not question identifiers. -/
theorem C8_score_invariance (answers : List (String × String))
    (qs qs2 : List Question) (extras : List (String × String))
    (hperm : qs.Perm qs2)
    (hextra : ∀ pr ∈ extras, pr.1 ∉ qs.map Question.id) :
    scoreOf answers qs = scoreOf answers qs2 ∧
    scoreOf (extras ++ answers) qs = scoreOf answers qs := by
  constructor
  · exact (hperm.map (questionScore answers)).sum_eq
  · apply scoreOf_congr
    intro q hq
    apply dictGet_append_of_not_mem
    intro hk
    obtain ⟨pr, hpr, hpr2⟩ := List.mem_map.mp hk
    exact hextra pr hpr (hpr2 ▸ List.mem_map_of_mem Question.id hq)

/-- C8 witness: swapping the two sample questions and prepending an
unrelated key leaves the sample submission's score unchanged. -/
theorem C8_score_invariance_witness :
    ([sampleQ1, sampleQ2] : List Question).Perm [sampleQ2, sampleQ1] ∧
    (∀ pr ∈ [(("zzz" : String), ("Q" : String))],
      pr.1 ∉ ([sampleQ1, sampleQ2] : List Question).map Question.id) ∧
    (scoreOf [("q1", "A")] [sampleQ1, sampleQ2] =
        scoreOf [("q1", "A")] [sampleQ2, sampleQ1] ∧
      scoreOf ([("zzz", "Q")] ++ [("q1", "A")]) [sampleQ1, sampleQ2] =
        scoreOf [("q1", "A")] [sampleQ1, sampleQ2]) :=
  ⟨by decide, by decide,
    C8_score_invariance [("q1", "A")] [sampleQ1, sampleQ2]
      [sampleQ2, sampleQ1] [("zzz", "Q")] (by decide) (by decide)⟩

/-- C9 counterexample: with two questions sharing the identifier `"x"`
(correct answers `"A"` and `"B"`), answering `"x"` with `"B"` — wrong for
the first question — scores 1, while omitting `"x"` scores 0, so the claim
fails as stated for arbitrary question lists. -/
theorem C9_missing_eq_wrong_counterexample :
    (⟨"x", "", [], "A", 1⟩ : Question) ∈
      ([⟨"x", "", [], "A", 1⟩, ⟨"x", "", [], "B", 1⟩] : List Question) ∧
    ("B" : String) ≠ (⟨"x", "", [], "A", 1⟩ : Question).correct_answer_id ∧
    dictGet [] (⟨"x", "", [], "A", 1⟩ : Question).id = none ∧
    scoreOf [("x", "B")]
        [⟨"x", "", [], "A", 1⟩, ⟨"x", "", [], "B", 1⟩] ≠
      scoreOf [] [⟨"x", "", [], "A", 1⟩, ⟨"x", "", [], "B", 1⟩] := by
  decide

/-- C9 (amended): when the question identifiers are pairwise distinct, a
submission that omits a question's identifier and one that additionally
maps it to any value other than that question's `correct_answer_id`
receive the same score. -/
theorem C9_missing_eq_wrong (qs : List Question) (q : Question)
    (answers : List (String × String)) (v : String) (hq : q ∈ qs)
    (hnodup : (qs.map Question.id).Nodup)
    (hmiss : dictGet answers q.id = none) (hv : v ≠ q.correct_answer_id) :
    scoreOf ((q.id, v) :: answers) qs = scoreOf answers qs := by
  induction qs with
  | nil => rfl
  | cons x rest ih =>
    rw [scoreOf_cons, scoreOf_cons]
    rw [List.map_cons, List.nodup_cons] at hnodup
    obtain ⟨hxid, hrest⟩ := hnodup
    rcases List.mem_cons.mp hq with hqx | hqrest
    · subst hqx
      have hget1 : dictGet ((q.id, v) :: answers) q.id = some v := by
        simp [dictGet]
      have h1 : questionScore ((q.id, v) :: answers) q = 0 := by
        unfold questionScore
        rw [hget1, if_neg fun h => hv (Option.some.inj h)]
      have h2 : questionScore answers q = 0 := by
        unfold questionScore
        rw [hmiss, if_neg (by simp)]
      have h3 : scoreOf ((q.id, v) :: answers) rest = scoreOf answers rest := by
        apply scoreOf_congr
        intro q' hq'
        have hne : q.id ≠ q'.id := by
          intro he
          exact hxid (he ▸ List.mem_map_of_mem Question.id hq')
        simp [dictGet, hne]
      rw [h1, h2, h3]
    · have hxq : x.id ≠ q.id := by
        intro he
        exact hxid (he ▸ List.mem_map_of_mem Question.id hqrest)
      have h1 : questionScore ((q.id, v) :: answers) x = questionScore answers x := by
        unfold questionScore
        have hget : dictGet ((q.id, v) :: answers) x.id = dictGet answers x.id := by
          simp [dictGet, Ne.symm hxq]
        rw [hget]
      rw [h1, ih hqrest hrest]

/-- C9 witness: with the two distinct-id sample questions, answering `q1`
with the wrong value `"C"` scores the same as not answering it. -/
theorem C9_missing_eq_wrong_witness :
    sampleQ1 ∈ ([sampleQ1, sampleQ2] : List Question) ∧
    (([sampleQ1, sampleQ2] : List Question).map Question.id).Nodup ∧
    dictGet [("q2", "B")] sampleQ1.id = none ∧
    ("C" : String) ≠ sampleQ1.correct_answer_id ∧
    scoreOf ((sampleQ1.id, "C") :: [("q2", "B")]) [sampleQ1, sampleQ2] =
      scoreOf [("q2", "B")] [sampleQ1, sampleQ2] :=
  ⟨by decide, by decide, by decide, by decide,
    C9_missing_eq_wrong [sampleQ1, sampleQ2] sampleQ1 [("q2", "B")] "C"
      (by decide) (by decide) (by decide) (by decide)⟩

/-- C10: the `QuizResult` component of `grade_quiz`'s return value always
has `student_name = ""`, is independent of the AI commentary outcome (the
record has no feedback field to store it), and the feedback travels as the
second component of the returned pair. -/
theorem C10_result_pair_shape (crew : Option String) (resp : QuizResponse)
    (qs : List Question) (f : String) :
    (grade_quiz crew resp qs).1.student_name = "" ∧
    (grade_quiz crew resp qs).1 = (grade_quiz none resp qs).1 ∧
    (grade_quiz (some f) resp qs).2 = f :=
  ⟨rfl, rfl, rfl⟩

/-- C3 counterexample: the percentage 89.999 lies in [0,100] but the
statistics histogram of `generate_class_statistics` counts it in zero
buckets (the code tests `80 <= s <= 89` and `90 <= s <= 100`, leaving a
gap), refuting "mutually exclusive AND collectively exhaustive ...
89.999 counts as B". -/
theorem C3_bucket_gap_counterexample :
    0 ≤ (89999 / 1000 : ℚ) ∧ (89999 / 1000 : ℚ) ≤ 100 ∧
    (generate_class_statistics [sampleResult (89999 / 1000)]).map
        (fun s => s.gradeA + s.gradeB + s.gradeC + s.gradeD + s.gradeF) =
      some 0 := by
  have hA : inBucketA (89999 / 1000 : ℚ) = false :=
    inBucketA_false_of_lt _ (by norm_num)
  have hB : inBucketB (89999 / 1000 : ℚ) = false :=
    inBucketB_false_of_gt _ (by norm_num)
  have hC : inBucketC (89999 / 1000 : ℚ) = false :=
    inBucketC_false_of_gt _ (by norm_num)
  have hD : inBucketD (89999 / 1000 : ℚ) = false :=
    inBucketD_false_of_gt _ (by norm_num)
  have hF : inBucketF (89999 / 1000 : ℚ) = false :=
    inBucketF_false_of_gt _ (by norm_num)
  refine ⟨by norm_num, by norm_num, ?_⟩
  simp [generate_class_statistics, sampleResult, List.countP_cons, hA, hB, hC,
    hD, hF]

/-- C3 (amended): the histogram buckets are mutually exclusive on all of
[0,100], each boundary value 60, 70, 80, 90 belongs to the higher-scoring
bucket, and every integer-valued percentage in [0,100] lies in exactly one
bucket; exhaustiveness fails only for non-integer percentages in the gaps
(59,60), (69,70), (79,80), (89,90). -/
theorem C3_buckets_amended (p : ℚ) (h0 : 0 ≤ p) (h100 : p ≤ 100) :
    bucketCount p ≤ 1 ∧
    ((∃ n : ℤ, p = (n : ℚ)) → bucketCount p = 1) ∧
    (inBucketA 90 = true ∧ inBucketB 90 = false) ∧
    (inBucketB 80 = true ∧ inBucketC 80 = false) ∧
    (inBucketC 70 = true ∧ inBucketD 70 = false) ∧
    (inBucketD 60 = true ∧ inBucketF 60 = false) := by
  refine ⟨bucketCount_le_one p, ?_, by decide, by decide, by decide, by decide⟩
  rintro ⟨n, rfl⟩
  have h0n : (0 : ℤ) ≤ n := by exact_mod_cast h0
  have h100n : n ≤ 100 := by exact_mod_cast h100
  simp only [bucketCount, inBucketA_intCast, inBucketB_intCast,
    inBucketC_intCast, inBucketD_intCast, inBucketF_intCast, decide_eq_true_eq]
  split_ifs <;> omega

/-- C3 witness: the boundary percentage 90 satisfies the hypotheses and
lies in exactly one bucket, the A bucket. -/
theorem C3_buckets_amended_witness :
    (0 ≤ (90 : ℚ) ∧ (90 : ℚ) ≤ 100) ∧
    (bucketCount (90 : ℚ) ≤ 1 ∧
      ((∃ n : ℤ, (90 : ℚ) = (n : ℚ)) → bucketCount (90 : ℚ) = 1) ∧
      (inBucketA 90 = true ∧ inBucketB 90 = false) ∧
      (inBucketB 80 = true ∧ inBucketC 80 = false) ∧
      (inBucketC 70 = true ∧ inBucketD 70 = false) ∧
      (inBucketD 60 = true ∧ inBucketF 60 = false)) :=
  ⟨⟨by decide, by decide⟩, C3_buckets_amended 90 (by decide) (by decide)⟩

/-- C5: on a nonempty collection, `generate_class_statistics` returns the
arithmetic mean, the extrema, and the pass rate `(count ≥ 60)/count·100`
of the percentages, and on the spec's five-percentage scenario
[100,80,60,40,20] it returns mean 60, max 100, min 20, pass rate 60 and
histogram A:1, B:1, C:0, D:1, F:2. -/
theorem C5_statistics_spec (rs : List QuizResult) (h : rs ≠ []) :
    ∃ s, generate_class_statistics rs = some s ∧
      s.total_students = rs.length ∧
      s.average_score = (rs.map QuizResult.percentage).sum / (rs.length : ℚ) ∧
      s.highest_score ∈ rs.map QuizResult.percentage ∧
      (∀ x ∈ rs.map QuizResult.percentage, x ≤ s.highest_score) ∧
      s.lowest_score ∈ rs.map QuizResult.percentage ∧
      (∀ x ∈ rs.map QuizResult.percentage, s.lowest_score ≤ x) ∧
      s.pass_rate =
        (((rs.map QuizResult.percentage).countP fun x => decide (60 ≤ x)) : ℚ) /
          (rs.length : ℚ) * 100 ∧
      generate_class_statistics fiveSample =
        some ⟨5, 60, 100, 20, 60, 1, 1, 0, 1, 2⟩ := by
  have hmapne : rs.map QuizResult.percentage ≠ [] := by
    intro hm
    exact h (List.map_eq_nil_iff.mp hm)
  have hlen : (rs.map QuizResult.percentage).length = rs.length :=
    List.length_map rs QuizResult.percentage
  rw [generate_class_statistics, if_neg h]
  refine ⟨_, rfl, rfl, by rw [hlen], pyMax_mem _ hmapne,
    fun x hx => le_pyMax _ x hx, pyMin_mem _ hmapne,
    fun x hx => pyMin_le _ x hx, by rw [hlen], ?_⟩
  rw [generate_class_statistics, if_neg (by decide)]
  norm_num [fiveSample, sampleResult, ClassStatistics.mk.injEq, pyMax, pyMin,
    max_def, min_def, List.countP_cons, List.countP_nil, inBucketA, inBucketB,
    inBucketC, inBucketD, inBucketF, decide_eq_true_eq]

/-- C5 witness: the five-result scenario is nonempty and satisfies the
conclusion. -/
theorem C5_statistics_spec_witness :
    fiveSample ≠ [] ∧
    (∃ s, generate_class_statistics fiveSample = some s ∧
      s.total_students = fiveSample.length ∧
      s.average_score =
        (fiveSample.map QuizResult.percentage).sum / (fiveSample.length : ℚ) ∧
      s.highest_score ∈ fiveSample.map QuizResult.percentage ∧
      (∀ x ∈ fiveSample.map QuizResult.percentage, x ≤ s.highest_score) ∧
      s.lowest_score ∈ fiveSample.map QuizResult.percentage ∧
      (∀ x ∈ fiveSample.map QuizResult.percentage, s.lowest_score ≤ x) ∧
      s.pass_rate =
        (((fiveSample.map QuizResult.percentage).countP
            fun x => decide (60 ≤ x)) : ℚ) /
          (fiveSample.length : ℚ) * 100 ∧
      generate_class_statistics fiveSample =
        some ⟨5, 60, 100, 20, 60, 1, 1, 0, 1, 2⟩) :=
  ⟨by decide, C5_statistics_spec fiveSample (by decide)⟩

/-- C6: when the AI crew call raises, `grade_quiz` still returns a result
pair and the feedback is exactly the deterministic template with the
computed score, total and one-decimal percentage substituted; on the
two-question sample (1 of 2 points) it is the literal string
"Quiz completed with a score of 1/2 (50.0%). Keep studying and
practicing!", and the percentage 6.25 (1 of 16 points) renders as "6.2"
(CPython's ties-to-even formatting), not "6.3". -/
theorem C6_fallback_feedback (resp : QuizResponse) (qs : List Question) :
    (grade_quiz none resp qs).2 =
      "Quiz completed with a score of " ++ toString (scoreOf resp.answers qs) ++
        "/" ++ toString (totalPoints qs) ++ " (" ++
        fmt1 (percentageOf (scoreOf resp.answers qs) (totalPoints qs)) ++
        "%). Keep studying and practicing!" ∧
    (grade_quiz none resp qs).1.score = scoreOf resp.answers qs ∧
    (grade_quiz none resp qs).1.total_points = totalPoints qs ∧
    (grade_quiz none resp qs).1.percentage =
      percentageOf (scoreOf resp.answers qs) (totalPoints qs) ∧
    (grade_quiz none sampleResp [sampleQ1, sampleQ2]).2 =
      "Quiz completed with a score of 1/2 (50.0%). Keep studying and practicing!" ∧
    fmt1 (percentageOf 1 16) = "6.2" := by
  refine ⟨rfl, rfl, rfl, rfl, ?_, ?_⟩
  · have hs : scoreOf sampleResp.answers [sampleQ1, sampleQ2] = 1 := by decide
    have ht : totalPoints [sampleQ1, sampleQ2] = 2 := by decide
    have hshow : (grade_quiz none sampleResp [sampleQ1, sampleQ2]).2 =
        fallbackFeedback (scoreOf sampleResp.answers [sampleQ1, sampleQ2])
          (totalPoints [sampleQ1, sampleQ2])
          (percentageOf (scoreOf sampleResp.answers [sampleQ1, sampleQ2])
            (totalPoints [sampleQ1, sampleQ2])) := rfl
    rw [hshow, hs, ht]
    have hp : percentageOf 1 2 = 50 := by rw [percentageOf]; norm_num
    rw [hp]
    have hf : fmt1 50 = "50.0" := by
      have hr : roundHalfEven ((50 : ℚ) * 10) = 500 := by
        rw [roundHalfEven]
        norm_num
      rw [fmt1, hr]
      decide
    rw [fallbackFeedback, hf]
    decide
  · have hp : percentageOf 1 16 = 25 / 4 := by rw [percentageOf]; norm_num
    rw [hp]
    have hr : roundHalfEven ((25 / 4 : ℚ) * 10) = 62 := by
      have hfl : ⌊(25 / 4 : ℚ) * 10⌋ = 62 := by norm_num
      rw [roundHalfEven, hfl]
      norm_num
    rw [fmt1, hr]
    decide

/-- C7: the performance label is a pure function of the percentage with
the thresholds 90/80/70 resolved upward: "Excellent" exactly on [90,∞),
"Good" on [80,90), "Satisfactory" on [70,80), "Needs Improvement" below
70; in particular 90 is "Excellent" and 50 is "Needs Improvement". -/
theorem C7_performance_level (p : ℚ) :
    (performanceLevel p = "Excellent" ↔ 90 ≤ p) ∧
    (performanceLevel p = "Good" ↔ 80 ≤ p ∧ p < 90) ∧
    (performanceLevel p = "Satisfactory" ↔ 70 ≤ p ∧ p < 80) ∧
    (performanceLevel p = "Needs Improvement" ↔ p < 70) ∧
    performanceLevel 90 = "Excellent" ∧
    performanceLevel 50 = "Needs Improvement" := by
  have key : (performanceLevel p = "Excellent" ↔ 90 ≤ p) ∧
      (performanceLevel p = "Good" ↔ 80 ≤ p ∧ p < 90) ∧
      (performanceLevel p = "Satisfactory" ↔ 70 ≤ p ∧ p < 80) ∧
      (performanceLevel p = "Needs Improvement" ↔ p < 70) := by
    unfold performanceLevel
    split_ifs with h1 h2 h3 <;>
      refine ⟨?_, ?_, ?_, ?_⟩ <;>
      simp_all <;>
      intros <;>
      linarith
  exact ⟨key.1, key.2.1, key.2.2.1, key.2.2.2, by decide, by decide⟩

end QuizGrading
